import Mathlib

/-!
Verification development for the Evalyn HR-automation backend.

Shallow embedding of the CV screening and shortlisting workflow:
the data model (application statuses, applications, jobs, interviews),
the screening orchestrator (`AIScreeningAgent.screen_applications` in
`app/services/ai_agent.py`), the candidate scorers (`analyze_cv` in
`app/services/ai_agent.py`, `analyze_cv_with_ai` in `simple_ai_agent.py`
and in `app.py`), the document text extractor (`extract_cv_text` plus
`vercel_blob_service.py`), the application-submission endpoint
(`submit_application` in `app/api/routes/applications.py`), the
shortlist notifier, and the interview allocator.

External collaborators (database connectivity, the generative-AI
provider, SMTP / Resend transport, HTTP transport, pdfplumber) are
modelled as explicit oracle parameters; all logic that the repository
itself implements is translated directly from the Python source.
Scores are modelled as rationals (`Rat`), matching the float scores the
code manipulates at the precision the comparisons need.
-/

namespace Evalyn

/-- Application status vocabulary, from `ApplicationStatus` in
`src/app/models/application.py`. -/
inductive ApplicationStatus
  | pending
  | screening
  | shortlisted
  | round1_passed
  | round2_scheduled
  | round2_completed
  | hired
  | rejected
deriving DecidableEq, Repr

/-- An application row, from the `Application` model in
`src/app/models/application.py` (NeonDB `JobApplication` table):
`id`, `jobId`, `name`, `email`, `phone`, `resumeUrl`, `coverLetter`,
`status`.  AI-derived fields are transient in the source and are kept
outside this record (the screening code stores them keyed by `id`). -/
structure Application where
  id : String
  jobId : String
  name : String
  email : String
  phone : Option String := none
  resumeUrl : Option String := none
  coverLetter : Option String := none
  status : ApplicationStatus := ApplicationStatus.pending
deriving DecidableEq, Repr

/-- `Settings.MINIMUM_MATCH_SCORE` in `src/app/core/config.py`. -/
def MINIMUM_MATCH_SCORE : Rat := 75

/-- `Settings.CV_SCREENING_TOP_CANDIDATES` in `src/app/core/config.py`. -/
def CV_SCREENING_TOP_CANDIDATES : Nat := 10

/-- One insertion step of the stable descending sort.  The element `x`
is placed in front of the first element whose score is less than or
equal to its own, so an element never moves in front of an
equal-scored element that was originally earlier. -/
def insertDesc (scoreOf : String → Rat) (x : Application) :
    List Application → List Application
  | [] => [x]
  | y :: ys =>
    if scoreOf y.id ≤ scoreOf x.id then x :: y :: ys
    else y :: insertDesc scoreOf x ys

/-- Stable sort, descending by score, modelling
`sorted(applications, key=lambda x: screening_results.get(x.id, {}).get("score", 0), reverse=True)`
at line 276 of `src/app/services/ai_agent.py`.  Python list sorts are
stable, and `reverse=True` keeps equal elements in their original
relative order; `insertDesc` realises exactly that order. -/
def sortDesc (scoreOf : String → Rat) : List Application → List Application
  | [] => []
  | x :: xs => insertDesc scoreOf x (sortDesc scoreOf xs)

/-- The status update applied to one member of the top slice
(lines 282-289 of `src/app/services/ai_agent.py`): the status becomes
`shortlisted` when the score meets the threshold, and is left untouched
otherwise. -/
def updateTopCandidate (scoreOf : String → Rat) (minScore : Rat)
    (a : Application) : Application :=
  if minScore ≤ scoreOf a.id then { a with status := ApplicationStatus.shortlisted }
  else a

/-- Core of `AIScreeningAgent.screen_applications`
(`src/app/services/ai_agent.py`, lines 275-301), given the list of
pending applications in retrieval order and the score that the AI
analysis produced for each application id: sort descending by score,
take the first `topN` as the top slice, mark the top-slice members that
meet `minScore` as `shortlisted`, and mark everything after the top
slice as `rejected`.  Returns (top slice as returned to the caller,
applications outside the top slice). -/
def screen_applications (scoreOf : String → Rat) (minScore : Rat) (topN : Nat)
    (applications : List Application) : List Application × List Application :=
  let sortedApps := sortDesc scoreOf applications
  ((sortedApps.take topN).map (updateTopCandidate scoreOf minScore),
   (sortedApps.drop topN).map (fun a => { a with status := ApplicationStatus.rejected }))

/-- The pending-application query of the screening run
(`Application.jobId == job_id, Application.status == PENDING`,
lines 229-232 of `src/app/services/ai_agent.py`). -/
def isPendingFor (jobId : String) (a : Application) : Bool :=
  decide (a.jobId = jobId ∧ a.status = ApplicationStatus.pending)

/-- All pending applications of a job, in retrieval order. -/
def pendingFor (db : List Application) (jobId : String) : List Application :=
  db.filter (isPendingFor jobId)

/-- A whole screening run against the stored application set: fetch the
pending applications of the job, screen them, and commit the status
updates.  Result: ((top slice, rejected slice), the stored rows after
commit, the number of scorer invocations — the loop at lines 243-273 of
`src/app/services/ai_agent.py` calls `analyze_cv` once per pending
application). -/
def screenJob (scoreOf : String → Rat) (minScore : Rat) (topN : Nat)
    (db : List Application) (jobId : String) :
    (List Application × List Application) × List Application × Nat :=
  let pendingApps := pendingFor db jobId
  let res := screen_applications scoreOf minScore topN pendingApps
  (res, (db.filter (fun a => !isPendingFor jobId a)) ++ res.1 ++ res.2,
   pendingApps.length)

/- ### Lemmas about the stable descending sort -/

theorem insertDesc_perm (s : String → Rat) (x : Application)
    (l : List Application) : List.Perm (insertDesc s x l) (x :: l) := by
  induction l with
  | nil => simp [insertDesc]
  | cons y ys ih =>
    by_cases h : s y.id ≤ s x.id
    · simp [insertDesc, h]
    · simp only [insertDesc, if_neg h]
      exact (ih.cons y).trans (List.Perm.swap x y ys)

theorem sortDesc_perm (s : String → Rat) (l : List Application) :
    List.Perm (sortDesc s l) l := by
  induction l with
  | nil => simp [sortDesc]
  | cons x xs ih =>
    exact (insertDesc_perm s x (sortDesc s xs)).trans (ih.cons x)

theorem mem_insertDesc (s : String → Rat) (x a : Application)
    (l : List Application) : a ∈ insertDesc s x l ↔ a = x ∨ a ∈ l := by
  simpa using (insertDesc_perm s x l).mem_iff

theorem mem_sortDesc (s : String → Rat) (a : Application)
    (l : List Application) : a ∈ sortDesc s l ↔ a ∈ l :=
  (sortDesc_perm s l).mem_iff

theorem insertDesc_sorted (s : String → Rat) (x : Application)
    (l : List Application)
    (h : l.Pairwise (fun a b => s b.id ≤ s a.id)) :
    (insertDesc s x l).Pairwise (fun a b => s b.id ≤ s a.id) := by
  induction l with
  | nil => simp [insertDesc]
  | cons y ys ih =>
    rcases List.pairwise_cons.mp h with ⟨hy, hys⟩
    by_cases hc : s y.id ≤ s x.id
    · simp only [insertDesc, if_pos hc]
      refine List.pairwise_cons.mpr ⟨?_, h⟩
      intro z hz
      rcases List.mem_cons.mp hz with rfl | hz
      · exact hc
      · exact le_trans (hy z hz) hc
    · simp only [insertDesc, if_neg hc]
      refine List.pairwise_cons.mpr ⟨?_, ih hys⟩
      intro z hz
      rcases (mem_insertDesc s x z ys).mp hz with rfl | hz
      · exact le_of_not_le hc
      · exact hy z hz

theorem sortDesc_sorted (s : String → Rat) (l : List Application) :
    (sortDesc s l).Pairwise (fun a b => s b.id ≤ s a.id) := by
  induction l with
  | nil => simp [sortDesc]
  | cons x xs ih => exact insertDesc_sorted s x _ ih

theorem insertDesc_filter_score (s : String → Rat) (v : Rat) (x : Application)
    (l : List Application) :
    (insertDesc s x l).filter (fun a => decide (s a.id = v)) =
      (x :: l).filter (fun a => decide (s a.id = v)) := by
  induction l with
  | nil => rfl
  | cons y ys ih =>
    by_cases hc : s y.id ≤ s x.id
    · simp only [insertDesc, if_pos hc]
    · simp only [insertDesc, if_neg hc]
      by_cases hx : s x.id = v
      · have hy : ¬ s y.id = v := by
          intro hyv
          exact hc (le_of_eq (hyv.trans hx.symm))
        simp [List.filter_cons, hx, hy, ih]
      · simp [List.filter_cons, hx, ih]

/-- Stability of the screening sort: the subsequence of applications
carrying any fixed score is unchanged by the sort. -/
theorem sortDesc_stable (s : String → Rat) (v : Rat) (l : List Application) :
    (sortDesc s l).filter (fun a => decide (s a.id = v)) =
      l.filter (fun a => decide (s a.id = v)) := by
  induction l with
  | nil => rfl
  | cons x xs ih =>
    rw [sortDesc, insertDesc_filter_score]
    simp [List.filter_cons, ih]

theorem updateTopCandidate_id (s : String → Rat) (m : Rat) (a : Application) :
    (updateTopCandidate s m a).id = a.id := by
  unfold updateTopCandidate
  by_cases h : m ≤ s a.id <;> simp [h]

/- ### Concrete screening scenario (scores 30, 90, 90, 10) -/

/-- A freshly submitted (pending) application of job `j1`. -/
def exApp (i : String) : Application :=
  { id := i, jobId := "j1", name := i, email := i }

/-- Score table realising the ranking example: 30, 90, 90, 10 for
applications `a1` .. `a4` and 60 for every other id. -/
def exScore : String → Rat := fun i =>
  if i = "a1" then 30 else if i = "a2" then 90 else if i = "a3" then 90 else
  if i = "a4" then 10 else 60

/-- C1: in a screening run over a job's pending applications, a member
of the top slice ends up `shortlisted` exactly when its score reaches
the configured minimum threshold (75.0); top-slice members below the
threshold are not transitioned to `shortlisted`; every application
outside the top slice is transitioned to `rejected`. -/
theorem screen_threshold_policy (s : String → Rat) (topN : Nat)
    (l : List Application)
    (hp : ∀ a ∈ l, a.status = ApplicationStatus.pending) :
    (∀ a ∈ (screen_applications s MINIMUM_MATCH_SCORE topN l).1,
        (a.status = ApplicationStatus.shortlisted ↔ MINIMUM_MATCH_SCORE ≤ s a.id))
    ∧ (∀ a ∈ (screen_applications s MINIMUM_MATCH_SCORE topN l).2,
        a.status = ApplicationStatus.rejected) := by
  constructor
  · intro a ha
    simp only [screen_applications, List.mem_map] at ha
    obtain ⟨b, hb, rfl⟩ := ha
    have hbl : b ∈ l :=
      (mem_sortDesc s b l).mp (List.take_subset topN _ hb)
    have hbp : b.status = ApplicationStatus.pending := hp b hbl
    unfold updateTopCandidate
    by_cases hsc : MINIMUM_MATCH_SCORE ≤ s b.id
    · simp [hsc]
    · simp only [if_neg hsc]
      constructor
      · intro hst
        rw [hbp] at hst
        exact absurd hst (by simp)
      · intro hle
        exact absurd hle hsc
  · intro a ha
    simp only [screen_applications, List.mem_map] at ha
    obtain ⟨b, _, rfl⟩ := ha
    rfl

/-- C1 witness: the threshold policy at a concrete run (scores 80 and
60 with `topN = 10`: the 80-scorer is shortlisted, the 60-scorer is
not). -/
theorem screen_threshold_policy_witness :
    (∀ a ∈ (screen_applications (fun i => if i = "c1" then 80 else 60)
        MINIMUM_MATCH_SCORE 10 [exApp "c1", exApp "c2"]).1,
        (a.status = ApplicationStatus.shortlisted ↔
          MINIMUM_MATCH_SCORE ≤ (fun i => if i = "c1" then (80 : Rat) else 60) a.id))
    ∧ (∀ a ∈ (screen_applications (fun i => if i = "c1" then 80 else 60)
        MINIMUM_MATCH_SCORE 10 [exApp "c1", exApp "c2"]).2,
        a.status = ApplicationStatus.rejected) :=
  screen_threshold_policy (fun i => if i = "c1" then 80 else 60) 10
    [exApp "c1", exApp "c2"] (by decide)

/-- C2: the screening orchestrator sorts the screened applications by
score descending with a stable sort — the sorted list is pairwise
descending, the subsequence at any fixed score keeps its original
retrieval order, and the sorted list is a permutation of the input —
and the returned top slice consists of exactly the first `topN`
applications of that order, threshold or not.  On the concrete scores
[30, 90, 90, 10] with `topN = 2`, the two 90-scorers are returned in
their original relative order and the other two are transitioned to
`rejected`. -/
theorem screen_sort_stable_top (s : String → Rat) (topN : Nat)
    (l : List Application) :
    (sortDesc s l).Pairwise (fun a b => s b.id ≤ s a.id)
    ∧ (∀ v : Rat,
        (sortDesc s l).filter (fun a => decide (s a.id = v)) =
          l.filter (fun a => decide (s a.id = v)))
    ∧ List.Perm (sortDesc s l) l
    ∧ (screen_applications s MINIMUM_MATCH_SCORE topN l).1.map Application.id
        = ((sortDesc s l).take topN).map Application.id
    ∧ ((screen_applications exScore MINIMUM_MATCH_SCORE 2
          [exApp "a1", exApp "a2", exApp "a3", exApp "a4"]).1.map Application.id
        = ["a2", "a3"]
      ∧ (screen_applications exScore MINIMUM_MATCH_SCORE 2
          [exApp "a1", exApp "a2", exApp "a3", exApp "a4"]).2.map
            (fun a => (a.id, a.status))
        = [("a1", ApplicationStatus.rejected), ("a4", ApplicationStatus.rejected)]) := by
  refine ⟨sortDesc_sorted s l, fun v => sortDesc_stable s v l, sortDesc_perm s l,
    ?_, by decide, by decide⟩
  simp only [screen_applications, List.map_map]
  exact List.map_congr_left fun a _ => updateTopCandidate_id s MINIMUM_MATCH_SCORE a

/- ### Re-screening behaviour (claim C6) -/

theorem pendingFor_append (l1 l2 : List Application) (j : String) :
    pendingFor (l1 ++ l2) j = pendingFor l1 j ++ pendingFor l2 j :=
  List.filter_append l1 l2

theorem pendingFor_untouched (db : List Application) (j : String) :
    pendingFor (db.filter (fun a => !isPendingFor j a)) j = [] := by
  apply List.filter_eq_nil_iff.mpr
  intro a ha
  have h2 := (List.mem_filter.mp ha).2
  simp only [Bool.not_eq_true'] at h2
  simp [h2]

theorem pendingFor_rejected (l : List Application) (j : String) :
    pendingFor
      (l.map (fun a => { a with status := ApplicationStatus.rejected })) j = [] := by
  unfold pendingFor
  rw [List.filter_map]
  have h : l.filter ((isPendingFor j) ∘
      (fun a => { a with status := ApplicationStatus.rejected })) = [] := by
    apply List.filter_eq_nil_iff.mpr
    intro a _
    simp [isPendingFor, Function.comp]
  rw [h, List.map_nil]

theorem pendingFor_top (s : String → Rat) (m : Rat) (l : List Application)
    (j : String)
    (h : ∀ a ∈ l, a.jobId = j ∧ a.status = ApplicationStatus.pending) :
    pendingFor (l.map (updateTopCandidate s m)) j
      = l.filter (fun a => decide (s a.id < m)) := by
  unfold pendingFor
  rw [List.filter_map]
  have hcong : ∀ a ∈ l, ((isPendingFor j) ∘ (updateTopCandidate s m)) a
      = (fun a => decide (s a.id < m)) a := by
    intro a ha
    obtain ⟨hj, hs⟩ := h a ha
    unfold updateTopCandidate
    by_cases hc : m ≤ s a.id
    · simp [Function.comp, if_pos hc, isPendingFor, not_lt.mpr hc]
    · simp [Function.comp, if_neg hc, isPendingFor, hj, hs, lt_of_not_le hc]
  rw [List.filter_congr hcong]
  have hid : ∀ a ∈ l.filter (fun a => decide (s a.id < m)),
      updateTopCandidate s m a = id a := by
    intro a ha
    have hlt : s a.id < m := by
      have := (List.mem_filter.mp ha).2
      simpa using this
    unfold updateTopCandidate
    simp [not_le.mpr hlt]
  rw [List.map_congr_left hid, List.map_id]

/-- C6 counterexample: with a single pending application scoring 60
(below the 75 threshold) and `topN = 10`, the first screening run
leaves that application in status `pending` — it is inside the top
slice but below the threshold — so a second run over the same job
finds it again and re-scores it (one scorer invocation, not zero). -/
theorem rescreen_not_noop :
    ¬ (pendingFor
          (screenJob exScore MINIMUM_MATCH_SCORE 10 [exApp "b1"] "j1").2.1 "j1" = []
       ∧ (screenJob exScore MINIMUM_MATCH_SCORE 10
            (screenJob exScore MINIMUM_MATCH_SCORE 10 [exApp "b1"] "j1").2.1
            "j1").2.2 = 0) := by
  decide

/-- C6 (amended): after a screening run, the applications still
`pending` for the job are exactly the top-slice members that scored
below the threshold (those are re-found and re-scored by a second
run); whenever no application of the job is left `pending` — in
particular when every top-slice member met the threshold — a second
screening invocation is a no-op: it finds zero pending applications,
performs zero scorer calls, and leaves the stored rows unchanged. -/
theorem rescreen_pending_residue (s : String → Rat) (m : Rat) (topN : Nat)
    (db : List Application) (jobId : String) :
    pendingFor (screenJob s m topN db jobId).2.1 jobId
      = ((sortDesc s (pendingFor db jobId)).take topN).filter
          (fun a => decide (s a.id < m))
    ∧ (∀ db2 : List Application, pendingFor db2 jobId = [] →
        screenJob s m topN db2 jobId = (([], []), db2, 0)) := by
  constructor
  · have hT : ∀ a ∈ (sortDesc s (pendingFor db jobId)).take topN,
        a.jobId = jobId ∧ a.status = ApplicationStatus.pending := by
      intro a ha
      have hmem : a ∈ pendingFor db jobId :=
        (mem_sortDesc s a _).mp (List.take_subset topN _ ha)
      have hpa := (List.mem_filter.mp hmem).2
      simpa [isPendingFor] using hpa
    show pendingFor ((db.filter fun a => !isPendingFor jobId a)
        ++ ((sortDesc s (pendingFor db jobId)).take topN).map
            (updateTopCandidate s m)
        ++ ((sortDesc s (pendingFor db jobId)).drop topN).map
            (fun a => { a with status := ApplicationStatus.rejected })) jobId = _
    rw [pendingFor_append, pendingFor_append, pendingFor_untouched,
      pendingFor_rejected, pendingFor_top s m _ jobId hT]
    simp
  · intro db2 h2
    have hall : ∀ a ∈ db2, isPendingFor jobId a = false := by
      intro a ha
      have := List.filter_eq_nil_iff.mp h2 a ha
      simpa using this
    have hfilter : db2.filter (fun a => !isPendingFor jobId a) = db2 := by
      apply List.filter_eq_self.mpr
      intro a ha
      simp [hall a ha]
    simp [screenJob, h2, hfilter, screen_applications, sortDesc]

/-- C6 witness: with a single pending application scoring 80 (above
the threshold), the first run shortlists it, no application stays
`pending`, and the second screening invocation is a no-op. -/
theorem rescreen_pending_residue_witness :
    screenJob (fun _ => (80 : Rat)) MINIMUM_MATCH_SCORE 10
        (screenJob (fun _ => (80 : Rat)) MINIMUM_MATCH_SCORE 10
          [exApp "c1"] "j1").2.1 "j1"
      = (([], []),
         (screenJob (fun _ => (80 : Rat)) MINIMUM_MATCH_SCORE 10
           [exApp "c1"] "j1").2.1, 0) :=
  (rescreen_pending_residue (fun _ => (80 : Rat)) MINIMUM_MATCH_SCORE 10
      [exApp "c1"] "j1").2
    (screenJob (fun _ => (80 : Rat)) MINIMUM_MATCH_SCORE 10 [exApp "c1"] "j1").2.1
    (by decide)

/- ### Python string primitives

The scorers manipulate provider replies with Python string methods
(`strip`, `startswith`, `split`, `join`, slicing, `lower`, `upper`,
`in`).  They are modelled here by structural functions on character
lists, matching Python semantics (str values are character sequences);
whitespace is the ASCII whitespace class Python uses for `strip`. -/

def isPyWs (c : Char) : Bool :=
  c = ' ' || c = '\t' || c = '\n' || c = '\r' || c = '\x0b' || c = '\x0c'

/-- Python `s.strip()`. -/
def pyStrip (s : String) : String :=
  String.mk (((s.toList.dropWhile isPyWs).reverse.dropWhile isPyWs).reverse)

def startsWithChars : List Char → List Char → Bool
  | [], _ => true
  | _ :: _, [] => false
  | p :: ps, c :: cs => c = p && startsWithChars ps cs

/-- Python `s.startswith(p)`. -/
def pyStartsWith (p s : String) : Bool :=
  startsWithChars p.toList s.toList

def hasSubChars (needle : List Char) : List Char → Bool
  | [] => needle.isEmpty
  | c :: cs => startsWithChars needle (c :: cs) || hasSubChars needle cs

/-- Python `needle in hay` on strings. -/
def containsSub (needle hay : String) : Bool :=
  hasSubChars needle.toList hay.toList

def splitNlChars : List Char → List (List Char)
  | [] => [[]]
  | c :: cs =>
    if c = '\n' then [] :: splitNlChars cs
    else
      match splitNlChars cs with
      | r :: rs => (c :: r) :: rs
      | [] => [[c]]

/-- Python `s.split('\n')`. -/
def pySplitNl (s : String) : List String :=
  (splitNlChars s.toList).map String.mk

/-- Python `'\n'.join(lines)`. -/
def pyJoinNl : List String → String
  | [] => ""
  | [s] => s
  | s :: rest => s ++ "\n" ++ pyJoinNl rest

/-- Python `s[:n]`. -/
def pySlice (n : Nat) (s : String) : String :=
  String.mk (s.toList.take n)

/-- Python `s.lower()` (ASCII). -/
def pyLower (s : String) : String :=
  String.mk (s.toList.map Char.toLower)

/-- Python `s.upper()` (ASCII). -/
def pyUpper (s : String) : String :=
  String.mk (s.toList.map Char.toUpper)

/- ### The candidate scorers -/

/-- Outcome of one `model.generate_content(prompt)` call against the
external provider: either a reply text or a raised exception rendered
as its message string. -/
inductive GenOutcome
  | ok (text : String)
  | raises (msg : String)
deriving DecidableEq, Repr

/-- The dict produced by the simple scorers: a score and a summary. -/
structure ScoreResult where
  score : Rat
  summary : String
deriving DecidableEq, Repr

/-- `"429" in error_str or "quota" in error_str.lower()`
(`simple_ai_agent.py` line 173, `app.py` line 200). -/
def isRateLimitError (msg : String) : Bool :=
  containsSub "429" msg || containsSub "quota" (pyLower msg)

/-- Markdown fence stripping shared by `simple_ai_agent.analyze_cv_with_ai`
(lines 165-167) and `app.analyze_cv_with_ai` (`app.py` lines 181-183):
when the reply opens with a fence, drop the first line, and also drop
the last line when it is a bare closing fence. -/
def cleanFencesSimple (text : String) : String :=
  if pyStartsWith "```" text then
    let lines := pySplitNl text
    if pyStrip (lines.getLastD "") = "```" then
      pyJoinNl ((lines.drop 1).dropLast)
    else
      pyJoinNl (lines.drop 1)
  else text

/-- Fence stripping of `AIScreeningAgent.analyze_cv`
(`app/services/ai_agent.py` lines 172-179).  This variant re-reads
`lines[-1]` after possibly dropping the first line, so on a reply that
is nothing but a single fence line the list is empty by then and the
Python code raises `IndexError` (swallowed by the surrounding handler);
the raising corner is modelled with `Except.error`. -/
def cleanFencesAgent (text : String) : Except String String :=
  if pyStartsWith "```" text then
    let lines := pySplitNl text
    let lines2 :=
      if pyStartsWith "```" (lines.headD "") then lines.drop 1 else lines
    match lines2.getLast? with
    | none => Except.error "list index out of range"
    | some lastLine =>
      let lines3 := if pyStrip lastLine = "```" then lines2.dropLast else lines2
      Except.ok (pyJoinNl lines3)
  else Except.ok text

/-- The Job row (`src/app/models/job.py`, NeonDB `JobPost` table).
Only `id`, `title`, `description`, `requirements` are real columns;
`isPublished`, `isActive`, `department`, experience bounds and level
are constant backwards-compatibility properties of the model class,
mirrored here as defaulted fields / fixed renderings. -/
structure Job where
  id : String
  title : String
  description : Option String := none
  requirements : Option String := none
  isPublished : Bool := true
  isActive : Bool := true
deriving DecidableEq, Repr

/-- Python f-string rendering of an optional text column (`None`
prints as "None"). -/
def optText : Option String → String
  | none => "None"
  | some s => s

/-- Python `value or default` on an optional text (both `None` and the
empty string fall back). -/
def orDefault (v : Option String) (d : String) : String :=
  match v with
  | none => d
  | some s => if s = "" then d else s

/-- Prompt of `AIScreeningAgent.analyze_cv` (lines 110-162): one
string embedding the job fields and the first 8000 characters of the
candidate text.  The long fixed instruction text is carried by its
identifying skeleton; the interpolations follow the source
(`job.department` and the experience properties are the constant
values from `models/job.py`, `job.responsibilities` falls back to the
description). -/
def agentPrompt (job : Job) (cvText : String) : String :=
  "You are an expert HR recruiter AI." ++
  "\nJOB DETAILS:\nTitle: " ++ job.title ++
  "\nDepartment: Not specified" ++
  "\nExperience Required: 0-10 years\nLevel: Mid-level" ++
  "\nJOB DESCRIPTION:\n" ++ optText job.description ++
  "\nREQUIREMENTS:\n" ++ optText job.requirements ++
  "\nRESPONSIBILITIES:\n" ++ orDefault job.description "Not specified" ++
  "\nCANDIDATE CV:\n" ++ pySlice 8000 cvText ++
  "\nRespond in this exact JSON format (no markdown, just pure JSON)"

/-- Fields of the dict-shaped detailed analysis. -/
structure AnalysisResult where
  score : Rat
  summary : String
  strengths : String
  weaknesses : String
  skills_matched : List String
deriving DecidableEq, Repr

/-- Result of `float(...)` applied to the parsed score field: a
numeric value, or the exception message `float` raises on a
non-convertible value. -/
inductive JsonScore
  | num (value : Rat)
  | bad (msg : String)
deriving DecidableEq, Repr

/-- The JSON object returned by `json.loads`, projected to the fields
`analyze_cv` reads; `none` marks an absent key. -/
structure RawAnalysis where
  scoreField : Option JsonScore := none
  summaryField : Option String := none
  strengthsField : Option String := none
  weaknessesField : Option String := none
  skillsField : Option (List String) := none
deriving DecidableEq, Repr

/-- The catch-all error result of `analyze_cv` (lines 195-204). -/
def analysisError (msg : String) : AnalysisResult :=
  { score := 0, summary := "Error during AI analysis: " ++ msg,
    strengths := "", weaknesses := "", skills_matched := [] }

/-- `AIScreeningAgent.analyze_cv` (`app/services/ai_agent.py`, lines
96-204): short-circuit on empty text with zero provider calls;
otherwise a single provider call — fence-strip the stripped reply,
parse it as JSON (`parse` is the `json.loads` oracle), default the
missing fields, convert the score with `float` (an absent score key
was defaulted to the empty string, so `float` raises on it); every
raised error is caught and becomes a zero-score error result.
Returns (result, number of provider calls). -/
def analyze_cv (gen : String → GenOutcome)
    (parse : String → Except String RawAnalysis)
    (job : Job) (cvText : String) : AnalysisResult × Nat :=
  if cvText = "" then
    ({ score := 0, summary := "Could not extract CV content", strengths := "",
       weaknesses := "No CV content available", skills_matched := [] }, 0)
  else
    match gen (agentPrompt job cvText) with
    | GenOutcome.raises msg => (analysisError msg, 1)
    | GenOutcome.ok reply =>
      match cleanFencesAgent (pyStrip reply) with
      | Except.error msg => (analysisError msg, 1)
      | Except.ok cleaned =>
        match parse cleaned with
        | Except.error msg => (analysisError msg, 1)
        | Except.ok raw =>
          match raw.scoreField with
          | none => (analysisError "could not convert string to float", 1)
          | some (JsonScore.bad msg) => (analysisError msg, 1)
          | some (JsonScore.num v) =>
            ({ score := v,
               summary := raw.summaryField.getD "",
               strengths := raw.strengthsField.getD "",
               weaknesses := raw.weaknessesField.getD "",
               skills_matched := raw.skillsField.getD [] }, 1)

/-- The `requirements` value of a job dict row: a string or a list of
strings (`simple_ai_agent.py` lines 140-143). -/
inductive ReqField
  | strVal (s : String)
  | listVal (l : List String)
deriving DecidableEq, Repr

/-- A `JobPost` row as the dict-based agents read it (columns may be
missing). -/
structure JobDict where
  title : Option String := none
  description : Option String := none
  requirements : Option ReqField := none
deriving DecidableEq, Repr

/-- `job_info` construction (`simple_ai_agent.py` lines 135-143,
identical in `app.py` lines 153-159): `dict.get` defaults, and list
requirements joined with newlines. -/
def simpleJobInfo (job : JobDict) : String :=
  "Title: " ++ job.title.getD "N/A" ++ "\n" ++
  "Description: " ++ job.description.getD "N/A" ++ "\n" ++
  "Requirements: " ++
    (match job.requirements with
     | none => ""
     | some (ReqField.strVal s) => s
     | some (ReqField.listVal l) => pyJoinNl l) ++ "\n"

/-- Prompt of the dict-based scorers (`simple_ai_agent.py` lines
145-155, `app.py` lines 161-171): job info plus the first 6000
characters of the CV text. -/
def simplePrompt (job : JobDict) (cvText : String) : String :=
  "You are an HR expert. Score this CV against the job requirements.\n\nJOB:\n"
  ++ simpleJobInfo job ++ "\nCV:\n" ++ pySlice 6000 cvText
  ++ "\n\nReturn ONLY a JSON object (no markdown, no explanation):\n"
  ++ "\x7b\"score\": <0-100>, \"summary\": \"<one sentence why>\"\x7d\n"

/-- The retry loop of `simple_ai_agent.analyze_cv_with_ai` (lines
157-182).  `gen` is indexed by the attempt number and receives the
prompt; `parse` is the `json.loads` oracle.  Provider exceptions and
JSON parse errors land in the same handler: a message containing
"429", or "quota" after lowercasing, sleeps `35 * (attempt + 1)`
seconds and retries; any other message returns score 0 with the text
truncated to 100 characters.  When the attempt bound is exhausted the
fixed rate-limit-exceeded result is returned.  Result: (value, number
of provider calls, total seconds slept). -/
def simpleRetryLoop (gen : Nat → String → GenOutcome)
    (parse : String → Except String ScoreResult) (prompt : String) :
    Nat → Nat → ScoreResult × Nat × Nat
  | _, 0 => ({ score := 0, summary := "Rate limit exceeded after retries" }, 0, 0)
  | attempt, rem + 1 =>
    match gen attempt prompt with
    | GenOutcome.ok reply =>
      match parse (cleanFencesSimple (pyStrip reply)) with
      | Except.ok r => (r, 1, 0)
      | Except.error msg =>
        if isRateLimitError msg then
          let next := simpleRetryLoop gen parse prompt (attempt + 1) rem
          (next.1, next.2.1 + 1, next.2.2 + 35 * (attempt + 1))
        else ({ score := 0, summary := pySlice 100 msg }, 1, 0)
    | GenOutcome.raises msg =>
      if isRateLimitError msg then
        let next := simpleRetryLoop gen parse prompt (attempt + 1) rem
        (next.1, next.2.1 + 1, next.2.2 + 35 * (attempt + 1))
      else ({ score := 0, summary := pySlice 100 msg }, 1, 0)

/-- `simple_ai_agent.analyze_cv_with_ai` (lines 128-182):
short-circuit on empty text, else up to `max_retries = 3` attempts. -/
def simple_analyze_cv_with_ai (gen : Nat → String → GenOutcome)
    (parse : String → Except String ScoreResult)
    (job : JobDict) (cvText : String) : ScoreResult × Nat × Nat :=
  if cvText = "" then ({ score := 0, summary := "Could not read CV" }, 0, 0)
  else simpleRetryLoop gen parse (simplePrompt job cvText) 0 3

/-- Match the tail of the salvage pattern at one text position: the
literal characters of the given needle, then optional whitespace, a
colon, optional whitespace, and a maximal nonempty digit run (the
capture group). -/
def dropLiteral : List Char → List Char → Option (List Char)
  | [], cs => some cs
  | _ :: _, [] => none
  | p :: ps, c :: cs => if c = p then dropLiteral ps cs else none

def scoreMatchAt (cs : List Char) : Option (List Char) :=
  match dropLiteral ("\"score\"".toList) cs with
  | none => none
  | some rest1 =>
    match rest1.dropWhile isPyWs with
    | ':' :: rest2 =>
      let digits := (rest2.dropWhile isPyWs).takeWhile Char.isDigit
      if digits.isEmpty then none else some digits
    | _ => none

def scoreSearch : List Char → Option (List Char)
  | [] => none
  | c :: cs =>
    match scoreMatchAt (c :: cs) with
    | some d => some d
    | none => scoreSearch cs

def digitsToNat (ds : List Char) : Nat :=
  ds.foldl (fun n c => 10 * n + (c.toNat - 48)) 0

/-- Score salvage of `app.analyze_cv_with_ai` (`src/app.py` lines
192-195): `re.search` for the literal key `"score"` followed by
optional whitespace, a colon, optional whitespace and digits —
leftmost match, greedy digit run — then `int` on the captured
digits. -/
def salvageScore (text : String) : Option Nat :=
  (scoreSearch text.toList).map digitsToNat

/-- `app.analyze_cv_with_ai` retry loop (`src/app.py` lines 173-208).
Same shape as `simpleRetryLoop`, but a JSON decode error has its own
handler: first try to salvage a score from the cleaned reply text,
then fall back to the fixed neutral score 50 with a parse-failure
message; only provider exceptions reach the rate-limit/other-error
handler.  On exhaustion the message is "Rate limit exceeded". -/
def appRetryLoop (gen : Nat → String → GenOutcome)
    (parse : String → Except String ScoreResult) (prompt : String) :
    Nat → Nat → ScoreResult × Nat × Nat
  | _, 0 => ({ score := 0, summary := "Rate limit exceeded" }, 0, 0)
  | attempt, rem + 1 =>
    match gen attempt prompt with
    | GenOutcome.ok reply =>
      let cleaned := cleanFencesSimple (pyStrip reply)
      match parse cleaned with
      | Except.ok r => (r, 1, 0)
      | Except.error _ =>
        match salvageScore cleaned with
        | some n => ({ score := n, summary := "Parsed from response" }, 1, 0)
        | none => ({ score := 50, summary := "Could not parse AI response" }, 1, 0)
    | GenOutcome.raises msg =>
      if isRateLimitError msg then
        let next := appRetryLoop gen parse prompt (attempt + 1) rem
        (next.1, next.2.1 + 1, next.2.2 + 35 * (attempt + 1))
      else ({ score := 0, summary := pySlice 100 msg }, 1, 0)

/-- `app.analyze_cv_with_ai` (`src/app.py` lines 143-208). -/
def app_analyze_cv_with_ai (gen : Nat → String → GenOutcome)
    (parse : String → Except String ScoreResult)
    (job : JobDict) (cvText : String) : ScoreResult × Nat × Nat :=
  if cvText = "" then ({ score := 0, summary := "Could not read CV" }, 0, 0)
  else appRetryLoop gen parse (simplePrompt job cvText) 0 3

/-- C3: for every job and every provider/parse oracle, an empty
extracted CV text makes each scorer return score 0 with its fixed
could-not-read summary and issue zero provider calls. -/
theorem analyze_empty_text_no_call
    (gen : String → GenOutcome) (parse : String → Except String RawAnalysis)
    (gen2 : Nat → String → GenOutcome)
    (parse2 : String → Except String ScoreResult)
    (job : Job) (jobDict : JobDict) :
    analyze_cv gen parse job ""
      = ({ score := 0, summary := "Could not extract CV content",
           strengths := "", weaknesses := "No CV content available",
           skills_matched := [] }, 0)
    ∧ simple_analyze_cv_with_ai gen2 parse2 jobDict ""
      = ({ score := 0, summary := "Could not read CV" }, 0, 0)
    ∧ app_analyze_cv_with_ai gen2 parse2 jobDict ""
      = ({ score := 0, summary := "Could not read CV" }, 0, 0) :=
  ⟨rfl, rfl, rfl⟩

/-- C4: the scorer retry policy of `simple_ai_agent.analyze_cv_with_ai`.
(a) Two rate-limit errors followed by a successful third attempt
return the successful result after 3 provider calls, with total sleep
35 + 70 seconds — the sum of the two linear backoff intervals
`35 * attempt` for attempts 1 and 2.  (b) A non-rate-limit provider
error fails fast: score 0 with the error text truncated to 100
characters, a single call, no sleep, no retry.  (c) Rate-limit errors
on all three attempts exhaust the bound: score 0 with the fixed
rate-limit-exceeded message after exactly 3 calls. -/
theorem simple_retry_policy (gen : Nat → String → GenOutcome)
    (parse : String → Except String ScoreResult) (job : JobDict)
    (cvText : String) (hcv : ¬ cvText = "") :
    (∀ m1 m2 reply r,
      gen 0 (simplePrompt job cvText) = GenOutcome.raises m1 →
      isRateLimitError m1 = true →
      gen 1 (simplePrompt job cvText) = GenOutcome.raises m2 →
      isRateLimitError m2 = true →
      gen 2 (simplePrompt job cvText) = GenOutcome.ok reply →
      parse (cleanFencesSimple (pyStrip reply)) = Except.ok r →
      simple_analyze_cv_with_ai gen parse job cvText = (r, 3, 35 + 70))
    ∧ (∀ m,
      gen 0 (simplePrompt job cvText) = GenOutcome.raises m →
      isRateLimitError m = false →
      simple_analyze_cv_with_ai gen parse job cvText
        = ({ score := 0, summary := pySlice 100 m }, 1, 0))
    ∧ (∀ m1 m2 m3,
      gen 0 (simplePrompt job cvText) = GenOutcome.raises m1 →
      gen 1 (simplePrompt job cvText) = GenOutcome.raises m2 →
      gen 2 (simplePrompt job cvText) = GenOutcome.raises m3 →
      isRateLimitError m1 = true →
      isRateLimitError m2 = true →
      isRateLimitError m3 = true →
      simple_analyze_cv_with_ai gen parse job cvText
        = ({ score := 0, summary := "Rate limit exceeded after retries" },
           3, 35 + 70 + 105)) := by
  refine ⟨?_, ?_, ?_⟩
  · intro m1 m2 reply r h0 hr1 h1 hr2 h2 hp
    simp [simple_analyze_cv_with_ai, hcv, simpleRetryLoop, h0, hr1, h1, hr2,
      h2, hp]
  · intro m h0 hr
    simp [simple_analyze_cv_with_ai, hcv, simpleRetryLoop, h0, hr]
  · intro m1 m2 m3 h0 h1 h2 hr1 hr2 hr3
    simp [simple_analyze_cv_with_ai, hcv, simpleRetryLoop, h0, h1, h2, hr1,
      hr2, hr3]

/-- Concrete provider trace for the retry witness: two rate-limited
attempts, then a clean JSON reply. -/
def genRetryW : Nat → String → GenOutcome := fun i _ =>
  if i = 0 then GenOutcome.raises "429 Resource has been exhausted"
  else if i = 1 then GenOutcome.raises "Quota exceeded for metric"
  else GenOutcome.ok "\x7b\"score\": 88, \"summary\": \"good\"\x7d"

/-- Concrete `json.loads` oracle for the retry witness. -/
def parseRetryW : String → Except String ScoreResult := fun t =>
  if t = "\x7b\"score\": 88, \"summary\": \"good\"\x7d" then
    Except.ok { score := 88, summary := "good" }
  else Except.error "Expecting value: line 1 column 1 (char 0)"

/-- C4 witness: on the concrete trace the third attempt's value comes
back after 3 calls and 105 seconds of sleep in total. -/
theorem simple_retry_policy_witness :
    simple_analyze_cv_with_ai genRetryW parseRetryW
      { title := some "Engineer" } "candidate cv"
      = ({ score := 88, summary := "good" }, 3, 35 + 70) :=
  (simple_retry_policy genRetryW parseRetryW { title := some "Engineer" }
      "candidate cv" (by decide)).1
    "429 Resource has been exhausted" "Quota exceeded for metric"
    "\x7b\"score\": 88, \"summary\": \"good\"\x7d"
    { score := 88, summary := "good" }
    rfl (by decide) rfl (by decide) rfl rfl

/-- C5: response handling of the scorer (`app.analyze_cv_with_ai`,
`src/app.py` lines 177-196).  The stripped reply is fence-cleaned
before the JSON parse, so the parser receives the cleaned text; when
the JSON parse fails, a numeric score is salvaged by pattern search on
the literal `"score"` key in the cleaned text; only when that also
fails is the fixed neutral fallback score 50 returned together with a
parse-failure message.  The last conjunct shows the fence stripping on
a concrete fenced reply. -/
theorem app_response_handling (gen : Nat → String → GenOutcome)
    (parse : String → Except String ScoreResult) (job : JobDict)
    (cvText : String) (hcv : ¬ cvText = "") :
    (∀ reply r,
      gen 0 (simplePrompt job cvText) = GenOutcome.ok reply →
      parse (cleanFencesSimple (pyStrip reply)) = Except.ok r →
      app_analyze_cv_with_ai gen parse job cvText = (r, 1, 0))
    ∧ (∀ reply msg n,
      gen 0 (simplePrompt job cvText) = GenOutcome.ok reply →
      parse (cleanFencesSimple (pyStrip reply)) = Except.error msg →
      salvageScore (cleanFencesSimple (pyStrip reply)) = some n →
      app_analyze_cv_with_ai gen parse job cvText
        = ({ score := n, summary := "Parsed from response" }, 1, 0))
    ∧ (∀ reply msg,
      gen 0 (simplePrompt job cvText) = GenOutcome.ok reply →
      parse (cleanFencesSimple (pyStrip reply)) = Except.error msg →
      salvageScore (cleanFencesSimple (pyStrip reply)) = none →
      app_analyze_cv_with_ai gen parse job cvText
        = ({ score := 50, summary := "Could not parse AI response" }, 1, 0))
    ∧ cleanFencesSimple "```json\nhello\n```" = "hello" := by
  refine ⟨?_, ?_, ?_, by decide⟩
  · intro reply r h0 hp
    simp [app_analyze_cv_with_ai, hcv, appRetryLoop, h0, hp]
  · intro reply msg n h0 hp hs
    simp [app_analyze_cv_with_ai, hcv, appRetryLoop, h0, hp, hs]
  · intro reply msg h0 hp hs
    simp [app_analyze_cv_with_ai, hcv, appRetryLoop, h0, hp, hs]

/-- A fenced, non-JSON provider reply used by the salvage witness. -/
def replySalvageW : String := "```json\n\"score\": 77 nonsense\n```"

/-- C5 witness: a fenced reply that fails the JSON parse but carries a
recognisable score key is salvaged to score 77 in one call. -/
theorem app_response_handling_witness :
    app_analyze_cv_with_ai (fun _ _ => GenOutcome.ok replySalvageW)
      (fun _ => Except.error "Expecting value: line 1 column 1 (char 0)")
      { title := some "Engineer" } "candidate cv"
      = ({ score := 77, summary := "Parsed from response" }, 1, 0) :=
  (app_response_handling (fun _ _ => GenOutcome.ok replySalvageW)
      (fun _ => Except.error "Expecting value: line 1 column 1 (char 0)")
      { title := some "Engineer" } "candidate cv" (by decide)).2.1
    replySalvageW "Expecting value: line 1 column 1 (char 0)" 77
    rfl rfl (by decide)

/- ### Interview allocation (claim C7) -/

/-- An Interview row (`src/app/models/interview.py`, NeonDB
`Interview` table), with scheduled times in minutes on an integer
timeline. -/
structure InterviewRec where
  applicationId : String
  round : String
  interviewerName : String
  interviewerEmail : String
  scheduledAt : Int
  durationMinutes : Nat
  status : String
deriving DecidableEq, Repr

/-- The sequential allocation loop shared by
`InterviewScheduler.schedule_bulk_interviews`
(`src/app/services/interview_scheduler.py` lines 100-131) and step 3
of `AIScreeningAgent.run_full_hr_workflow`
(`src/app/services/ai_agent.py` lines 422-464): walk the ordered
candidate list, create one round-2 interview at the running time with
status `scheduled`, set the candidate's application status to
`round2_scheduled`, and advance the running time by
`duration + gap` minutes. -/
def scheduleLoop (interviewerName interviewerEmail : String)
    (durationMinutes gapMinutes : Nat) :
    Int → List Application → List InterviewRec × List Application
  | _, [] => ([], [])
  | t, a :: rest =>
    let iv : InterviewRec :=
      { applicationId := a.id, round := "round2",
        interviewerName := interviewerName,
        interviewerEmail := interviewerEmail,
        scheduledAt := t, durationMinutes := durationMinutes,
        status := "scheduled" }
    let next := scheduleLoop interviewerName interviewerEmail
      durationMinutes gapMinutes (t + (durationMinutes + gapMinutes)) rest
    (iv :: next.1,
     { a with status := ApplicationStatus.round2_scheduled } :: next.2)

/-- Bulk scheduling over an ordered candidate list from a start time:
the loop above started at `startTime`. -/
def schedule_bulk_interviews (interviewerName interviewerEmail : String)
    (startTime : Int) (durationMinutes gapMinutes : Nat)
    (candidates : List Application) :
    List InterviewRec × List Application :=
  scheduleLoop interviewerName interviewerEmail durationMinutes gapMinutes
    startTime candidates

theorem scheduleLoop_times (inm iem : String) (dur gap : Nat)
    (l : List Application) : ∀ t : Int,
    (scheduleLoop inm iem dur gap t l).1.map InterviewRec.scheduledAt
      = (List.range l.length).map
          (fun i : Nat => t + (i : Int) * ((dur : Int) + gap)) := by
  induction l with
  | nil => intro t; rfl
  | cons a rest ih =>
    intro t
    simp only [scheduleLoop, List.map_cons, List.length_cons,
      List.range_succ_eq_map, List.map_map]
    rw [ih]
    congr 1
    · simp
    · apply List.map_congr_left
      intro i _
      simp only [Function.comp]
      push_cast
      ring

theorem scheduleLoop_ids (inm iem : String) (dur gap : Nat)
    (l : List Application) : ∀ t : Int,
    (scheduleLoop inm iem dur gap t l).1.map InterviewRec.applicationId
      = l.map Application.id := by
  induction l with
  | nil => intro t; rfl
  | cons a rest ih =>
    intro t
    simp only [scheduleLoop, List.map_cons, ih]

theorem scheduleLoop_statuses (inm iem : String) (dur gap : Nat)
    (l : List Application) : ∀ t : Int,
    (scheduleLoop inm iem dur gap t l).2.map Application.status
      = List.replicate l.length ApplicationStatus.round2_scheduled := by
  induction l with
  | nil => intro t; rfl
  | cons a rest ih =>
    intro t
    simp only [scheduleLoop, List.map_cons, List.length_cons,
      List.replicate_succ, ih]

/-- C7: the interview allocator assigns the i-th candidate (0-based)
the start time `start + i * (duration + gap)`, creates exactly one
Interview per candidate (in candidate order), sets every candidate's
application status to `round2_scheduled`, and the assigned slots are
strictly sequential — each interview ends (start plus duration) no
later than the next begins, so no two slots overlap.  Concretely,
for duration 60 and gap 30 three candidates receive start times
`T`, `T + 90`, `T + 180`. -/
theorem allocator_sequential_slots (inm iem : String) (startTime : Int)
    (dur gap : Nat) (candidates : List Application) :
    ((schedule_bulk_interviews inm iem startTime dur gap candidates).1.map
        InterviewRec.scheduledAt
      = (List.range candidates.length).map
          (fun i : Nat => startTime + (i : Int) * ((dur : Int) + gap)))
    ∧ ((schedule_bulk_interviews inm iem startTime dur gap candidates).1.map
        InterviewRec.applicationId
      = candidates.map Application.id)
    ∧ ((schedule_bulk_interviews inm iem startTime dur gap candidates).2.map
        Application.status
      = List.replicate candidates.length ApplicationStatus.round2_scheduled)
    ∧ (schedule_bulk_interviews inm iem startTime dur gap candidates).1.Pairwise
        (fun iv1 iv2 => iv1.scheduledAt + (dur : Int) ≤ iv2.scheduledAt)
    ∧ ((schedule_bulk_interviews inm iem startTime 60 30
          [exApp "d1", exApp "d2", exApp "d3"]).1.map InterviewRec.scheduledAt
      = [startTime, startTime + 90, startTime + 180]) := by
  refine ⟨scheduleLoop_times inm iem dur gap candidates startTime,
    scheduleLoop_ids inm iem dur gap candidates startTime,
    scheduleLoop_statuses inm iem dur gap candidates startTime, ?_, ?_⟩
  · have htimes := scheduleLoop_times inm iem dur gap candidates startTime
    have hpw : ((schedule_bulk_interviews inm iem startTime dur gap
        candidates).1.map InterviewRec.scheduledAt).Pairwise
        (fun t1 t2 => t1 + (dur : Int) ≤ t2) := by
      show ((scheduleLoop inm iem dur gap startTime candidates).1.map
        InterviewRec.scheduledAt).Pairwise (fun t1 t2 => t1 + (dur : Int) ≤ t2)
      rw [htimes, List.pairwise_map]
      apply (List.pairwise_lt_range candidates.length).imp
      intro i j hij
      have hij2 : (i : Int) + 1 ≤ j := by exact_mod_cast hij
      have hdg : (0 : Int) ≤ (dur : Int) + gap := by positivity
      have h1 : ((i : Int) + 1) * ((dur : Int) + gap)
          ≤ (j : Int) * ((dur : Int) + gap) :=
        mul_le_mul_of_nonneg_right hij2 hdg
      have hg : (0 : Int) ≤ (gap : Int) := Int.ofNat_nonneg gap
      nlinarith [h1, hg]
    rw [List.pairwise_map] at hpw
    exact hpw
  · simp only [schedule_bulk_interviews, scheduleLoop, List.map_cons,
      List.map_nil]
    norm_num
    omega

/- ### Shortlist notification (claim C10) -/

/-- The shortlisted-application query of the notification endpoint
(`Application.jobId == job_id, Application.status == SHORTLISTED`,
lines 231-234 of `src/app/api/routes/applications.py`). -/
def isShortlistedFor (jobId : String) (a : Application) : Bool :=
  decide (a.jobId = jobId ∧ a.status = ApplicationStatus.shortlisted)

/-- `notify_shortlisted_candidates`
(`src/app/api/routes/applications.py` lines 217-252), with `sendOk`
the per-recipient outcome of the email transport
(`EmailService.send_shortlist_notification` returns a Bool and never
raises, `send_bulk_shortlist_notifications` counts successes and
failures): fetch the shortlisted applications of the job, attempt all
sends, then — regardless of the individual send outcomes — transition
every fetched application to `round1_passed` in one batch and commit.
Step 2 of `run_full_hr_workflow` (`src/app/services/ai_agent.py`
lines 398-416) performs the same unconditional batch transition.
Returns (stored rows after commit, send successes, send failures). -/
def notify_shortlisted (sendOk : Application → Bool)
    (db : List Application) (jobId : String) :
    List Application × Nat × Nat :=
  let shortlisted := db.filter (isShortlistedFor jobId)
  if shortlisted.isEmpty then (db, 0, 0)
  else
    let succ := (shortlisted.filter sendOk).length
    let fail := shortlisted.length - succ
    (db.map (fun a =>
      if isShortlistedFor jobId a then
        { a with status := ApplicationStatus.round1_passed }
      else a),
     succ, fail)

/-- C10: after a bulk shortlist-notification run, every application
that was `shortlisted` for the job is transitioned to `round1_passed`
unconditionally — the resulting stored rows are identical for any two
send-outcome functions, so the transition happens whether the
individual emails succeeded or failed — and rows that were not
shortlisted for the job are left unchanged. -/
theorem notify_unconditional_transition (db : List Application)
    (jobId : String) (sendOk sendOk2 : Application → Bool) :
    (notify_shortlisted sendOk db jobId).1
      = (notify_shortlisted sendOk2 db jobId).1
    ∧ (∀ a ∈ db, a.jobId = jobId → a.status = ApplicationStatus.shortlisted →
        { a with status := ApplicationStatus.round1_passed }
          ∈ (notify_shortlisted sendOk db jobId).1)
    ∧ (∀ a ∈ db, isShortlistedFor jobId a = false →
        a ∈ (notify_shortlisted sendOk db jobId).1) := by
  by_cases hempty : (db.filter (isShortlistedFor jobId)).isEmpty
  · refine ⟨by simp [notify_shortlisted, hempty], ?_, ?_⟩
    · intro a ha hj hs
      exfalso
      have hmem : a ∈ db.filter (isShortlistedFor jobId) :=
        List.mem_filter.mpr ⟨ha, by simp [isShortlistedFor, hj, hs]⟩
      rw [List.isEmpty_iff] at hempty
      simp [hempty] at hmem
    · intro a ha _
      simpa [notify_shortlisted, hempty] using ha
  · refine ⟨by simp [notify_shortlisted, hempty], ?_, ?_⟩
    · intro a ha hj hs
      have hsl : isShortlistedFor jobId a = true := by
        simp [isShortlistedFor, hj, hs]
      have hmem : { a with status := ApplicationStatus.round1_passed }
          ∈ db.map (fun a => if isShortlistedFor jobId a then
              { a with status := ApplicationStatus.round1_passed } else a) :=
        List.mem_map.mpr ⟨a, ha, by rw [if_pos hsl]⟩
      simpa [notify_shortlisted, hempty] using hmem
    · intro a ha hsl
      have hmem : a ∈ db.map (fun a => if isShortlistedFor jobId a then
          { a with status := ApplicationStatus.round1_passed } else a) :=
        List.mem_map.mpr ⟨a, ha, by rw [if_neg (by simp [hsl])]⟩
      simpa [notify_shortlisted, hempty] using hmem

/-- A shortlisted application used by the notification witness. -/
def appShortW : Application :=
  { id := "s1", jobId := "j1", name := "S", email := "s@example.com",
    status := ApplicationStatus.shortlisted }

/-- C10 witness: even when every send fails (`sendOk` constantly
false), the shortlisted candidate is transitioned to
`round1_passed`. -/
theorem notify_unconditional_transition_witness :
    { appShortW with status := ApplicationStatus.round1_passed }
      ∈ (notify_shortlisted (fun _ => false) [appShortW] "j1").1 :=
  (notify_unconditional_transition [appShortW] "j1" (fun _ => false)
      (fun _ => true)).2.1 appShortW (by simp) rfl rfl

/- ### Path extension splitting (`os.path.splitext(...)[1]`) -/

def splitOnCharList (sep : Char) : List Char → List (List Char)
  | [] => [[]]
  | c :: cs =>
    if c = sep then [] :: splitOnCharList sep cs
    else
      match splitOnCharList sep cs with
      | r :: rs => (c :: r) :: rs
      | [] => [[c]]

/-- The suffix of a character list starting at its last dot, if any. -/
def lastDotSuffix : List Char → Option (List Char)
  | [] => none
  | c :: cs =>
    match lastDotSuffix cs with
    | some s => some s
    | none => if c = '.' then some (c :: cs) else none

/-- `os.path.splitext(p)[1]`: the extension of the final path
component — its suffix from the last dot, except that leading dots of
the component never start an extension. -/
def splitextExt (p : String) : String :=
  let base := (splitOnCharList '/' p.toList).getLastD []
  match lastDotSuffix (base.dropWhile (· = '.')) with
  | some s => String.mk s
  | none => ""

/- ### Application submission (claim C9) -/

/-- HTTP errors raised by the route handlers. -/
inductive ApiError
  | notFound (detail : String)
  | badRequest (detail : String)
deriving DecidableEq, Repr

/-- `"".join(c for c in full_name if c.isalnum() or c == " ").replace(" ", "_")`
(`src/app/api/routes/applications.py` line 82). -/
def safeName (fullName : String) : String :=
  String.mk ((fullName.toList.filter (fun c => c.isAlphanum || c = ' ')).map
    (fun c => if c = ' ' then '_' else c))

/-- The criterion SQLAlchemy receives for `Job.isPublished == True`
in the job lookup of `submit_application`
(`src/app/api/routes/applications.py` lines 54-58).  `isPublished` is
not a column: it is a class-level Python `@property` of the model
(`src/app/models/job.py`), so the class attribute is the property
object itself and the `==` comparison evaluates to the plain Python
constant `False`, which SQLAlchemy coerces to SQL `false`.  The
criterion therefore rejects every row. -/
def jobPublishedCriterion : Bool := false

/-- The criterion for `Job.isActive == True` in the same filter:
`isActive` is likewise a class-level `@property`, so this criterion is
also the constant SQL `false`. -/
def jobActiveCriterion : Bool := false

/-- `submit_application` (`src/app/api/routes/applications.py` lines
36-115).  External effects are parameters: `blobUrl` is the result of
the Vercel Blob upload (`none` = failure, triggering the local-disk
fallback URL), `newId` the generated application id, `timestampTag`
the formatted timestamp used in the stored file name.  The route: 404
when the job lookup returns no row — and because the publication-flag
criteria are the constant SQL `false` (see `jobPublishedCriterion`),
the lookup matches no row for any id, so this branch always fires;
then (dead code in the program, still translated here) 400 when an
application with the same (jobId, email) already exists, 400 when the
lowercased file extension is not .pdf/.docx/.doc, and otherwise one
new `pending` row.  An error raises before `db.add`, so it leaves the
stored rows unchanged. -/
def submit_application (jobs : List Job) (db : List Application)
    (jobId fullName email : String) (phone coverLetter : Option String)
    (fileName : String) (blobUrl : Option String)
    (newId timestampTag : String) :
    Except ApiError (List Application × Application) :=
  match jobs.find? (fun j =>
      decide (j.id = jobId) && jobPublishedCriterion && jobActiveCriterion) with
  | none =>
    Except.error (ApiError.notFound "Job not found or not accepting applications")
  | some _ =>
    match db.find? (fun a => decide (a.jobId = jobId ∧ a.email = email)) with
    | some _ =>
      Except.error (ApiError.badRequest "You have already applied for this position")
    | none =>
      let fileExt := pyLower (splitextExt fileName)
      if fileExt = ".pdf" ∨ fileExt = ".docx" ∨ fileExt = ".doc" then
        let storedName :=
          safeName fullName ++ "_" ++ pySlice 8 jobId ++ "_" ++ timestampTag
            ++ fileExt
        let resumeUrl :=
          match blobUrl with
          | some u => u
          | none => "/api/uploads/resumes/" ++ storedName
        let application : Application :=
          { id := newId, jobId := jobId, name := fullName, email := email,
            phone := phone, resumeUrl := some resumeUrl,
            coverLetter := coverLetter,
            status := ApplicationStatus.pending }
        Except.ok (db ++ [application], application)
      else
        Except.error (ApiError.badRequest "CV must be PDF or Word document")

/-- C9 (code bug): the claim — a duplicate (job, email) apply is
rejected with the 400 Validation error and at most one row per pair
persists — is clearly what the route intends (the duplicate check with
exactly that 400 message is written at lines 64-70), but the code
forecloses it: the job lookup compares the class-level `@property`
objects `Job.isPublished`/`Job.isActive` with `True`, which is the
Python constant `False` and reaches SQLAlchemy as SQL `false`, so the
lookup matches no job.  Every apply call — the first as much as the
second, for every job store, application store and input — is
therefore rejected with the 404 job-not-found error: no row is ever
inserted by this endpoint and the 400 duplicate rejection is dead
code.  (The at-most-one-row-per-pair invariant holds only vacuously.) -/
theorem apply_always_not_found (jobs : List Job) (db : List Application)
    (jobId fullName email : String) (phone coverLetter : Option String)
    (fileName : String) (blobUrl : Option String)
    (newId timestampTag : String) :
    submit_application jobs db jobId fullName email phone coverLetter
        fileName blobUrl newId timestampTag
      = Except.error
          (ApiError.notFound "Job not found or not accepting applications") := by
  unfold submit_application
  have hnone : jobs.find? (fun j =>
      decide (j.id = jobId) && jobPublishedCriterion && jobActiveCriterion)
      = none := by
    apply List.find?_eq_none.mpr
    intro j hj
    simp [jobPublishedCriterion, jobActiveCriterion]
  rw [hnone]

/- ### Document text extraction (claim C8) -/

/-- Raw downloaded bytes, abstracted. -/
abbrev Bytes := List Nat

/-- One HTTP GET through `httpx`/`requests`: a response carrying a
status code and a body, or a raised transport exception. -/
inductive HttpResult
  | response (status : Nat) (body : Bytes)
  | raises (msg : String)
deriving DecidableEq, Repr

/-- External-world oracle for the extractor: the HTTP transport, the
pdfplumber parser (per-page optional text, or a raised parse error on
a corrupt document), the local filesystem, and the docx/txt readers. -/
structure ExtractEnv where
  httpGet : String → HttpResult
  pdfPages : Bytes → Except String (List (Option String))
  fileExists : String → Bool
  localPdfPages : String → Except String (List (Option String))
  docxParagraphs : String → Except String (List String)
  txtContent : String → Except String String

/-- `Settings.VERCEL_BLOB_BASE_URL` (`src/app/core/config.py`). -/
def VERCEL_BLOB_BASE_URL : String :=
  "https://u8y5z64xjxmqlcdt.public.blob.vercel-storage.com"

/-- URL resolution of `VercelBlobService.download_pdf`
(`src/app/services/vercel_blob_service.py` lines 36-42): a leading
slash or a non-http reference is resolved against the blob base URL;
absolute URLs pass through. -/
def resolveBlobUrl (url : String) : String :=
  if pyStartsWith "/" url then
    VERCEL_BLOB_BASE_URL ++ "/" ++ String.mk (url.toList.dropWhile (· = '/'))
  else if ¬ pyStartsWith "http" url = true then
    VERCEL_BLOB_BASE_URL ++ "/" ++ url
  else url

/-- `VercelBlobService.download_pdf` (lines 21-56): GET the resolved
URL with a 30s timeout; body on HTTP 200, `none` on any other status
or raised error. -/
def download_pdf (env : ExtractEnv) (url : String) : Option Bytes :=
  if url = "" then none
  else
    match env.httpGet (resolveBlobUrl url) with
    | HttpResult.response status body =>
      if status = 200 then some body else none
    | HttpResult.raises _ => none

/-- `VercelBlobService.extract_text_from_pdf_bytes` (lines 58-84):
pages yielding text contribute `text + "\n"`, the result is stripped;
a raised pdfplumber error yields the empty string. -/
def extract_text_from_pdf_bytes (env : ExtractEnv) (body : Bytes) : String :=
  match env.pdfPages body with
  | Except.error _ => ""
  | Except.ok pages =>
    pyStrip (pages.foldl (fun acc p =>
      match p with
      | some t => if t = "" then acc else acc ++ t ++ "\n"
      | none => acc) "")

/-- `VercelBlobService.get_cv_text_from_url` (lines 86-110): empty and
NULL references, failed downloads and empty bodies all yield the empty
string. -/
def get_cv_text_from_url (env : ExtractEnv) (url : String) : String :=
  if url = "" then ""
  else if pyUpper url = "NULL" then ""
  else
    match download_pdf env url with
    | none => ""
    | some body =>
      if body.isEmpty then "" else extract_text_from_pdf_bytes env body

/-- `AIScreeningAgent.extract_cv_text` (`src/app/services/ai_agent.py`
lines 44-94): empty or NULL references short-circuit; http and
`/api/` references go through the blob service; local paths are
checked for existence and dispatched on the lowercased extension
(local PDF pages are concatenated without separators via
`page.extract_text() or ""`); every reader error is caught.  The
function is total into plain strings — the Python code catches every
exception, so no failure propagates. -/
def extract_cv_text (env : ExtractEnv) (ref : String) : String :=
  if ref = "" then ""
  else if pyUpper ref = "NULL" then ""
  else if pyStartsWith "http" ref || pyStartsWith "/api/" ref then
    get_cv_text_from_url env ref
  else if ¬ env.fileExists ref = true then ""
  else
    let ext := pyLower (splitextExt ref)
    if ext = ".pdf" then
      match env.localPdfPages ref with
      | Except.ok pages => pages.foldl (fun acc p => acc ++ p.getD "") ""
      | Except.error _ => ""
    else if ext = ".docx" ∨ ext = ".doc" then
      match env.docxParagraphs ref with
      | Except.ok paras => pyJoinNl paras
      | Except.error _ => ""
    else if ext = ".txt" then
      match env.txtContent ref with
      | Except.ok t => t
      | Except.error _ => ""
    else ""

/-- C8: the document text extractor never propagates a failure — it is
a total function into plain strings (every collaborator outcome,
including raised errors, is matched and absorbed), and on each failure
class it returns the empty string: missing (empty) reference, NULL
reference, raised transport error, non-200 transport response,
unparsable (corrupt) download, missing local file, unsupported
extension, and raised local reader error. -/
theorem extractor_never_throws (env : ExtractEnv) (ref : String) :
    (extract_cv_text env "" = "")
    ∧ (extract_cv_text env "NULL" = "" ∧ extract_cv_text env "null" = "")
    ∧ (∀ msg, ref ≠ "" → pyUpper ref ≠ "NULL" →
        (pyStartsWith "http" ref || pyStartsWith "/api/" ref) = true →
        env.httpGet (resolveBlobUrl ref) = HttpResult.raises msg →
        extract_cv_text env ref = "")
    ∧ (∀ st body, ref ≠ "" → pyUpper ref ≠ "NULL" →
        (pyStartsWith "http" ref || pyStartsWith "/api/" ref) = true →
        env.httpGet (resolveBlobUrl ref) = HttpResult.response st body →
        st ≠ 200 →
        extract_cv_text env ref = "")
    ∧ (∀ body msg, ref ≠ "" → pyUpper ref ≠ "NULL" →
        (pyStartsWith "http" ref || pyStartsWith "/api/" ref) = true →
        env.httpGet (resolveBlobUrl ref) = HttpResult.response 200 body →
        env.pdfPages body = Except.error msg →
        extract_cv_text env ref = "")
    ∧ (ref ≠ "" → pyUpper ref ≠ "NULL" →
        (pyStartsWith "http" ref || pyStartsWith "/api/" ref) = false →
        env.fileExists ref = false →
        extract_cv_text env ref = "")
    ∧ (∀ msg, ref ≠ "" → pyUpper ref ≠ "NULL" →
        (pyStartsWith "http" ref || pyStartsWith "/api/" ref) = false →
        env.fileExists ref = true →
        pyLower (splitextExt ref) = ".pdf" →
        env.localPdfPages ref = Except.error msg →
        extract_cv_text env ref = "")
    ∧ (ref ≠ "" → pyUpper ref ≠ "NULL" →
        (pyStartsWith "http" ref || pyStartsWith "/api/" ref) = false →
        env.fileExists ref = true →
        pyLower (splitextExt ref) ∉ ([".pdf", ".docx", ".doc", ".txt"] : List String) →
        extract_cv_text env ref = "") := by
  refine ⟨rfl, ⟨rfl, rfl⟩, ?_, ?_, ?_, ?_, ?_, ?_⟩
  · intro msg h1 h2 h3 h4
    simp [extract_cv_text, get_cv_text_from_url, download_pdf, h1, h2, h3, h4]
  · intro st body h1 h2 h3 h4 h5
    simp [extract_cv_text, get_cv_text_from_url, download_pdf, h1, h2, h3,
      h4, h5]
  · intro body msg h1 h2 h3 h4 h5
    by_cases hb : body.isEmpty
    · simp [extract_cv_text, get_cv_text_from_url, download_pdf, h1, h2, h3,
        h4, hb]
    · simp [extract_cv_text, get_cv_text_from_url, download_pdf,
        extract_text_from_pdf_bytes, h1, h2, h3, h4, h5, hb]
  · intro h1 h2 h3 h4
    simp [extract_cv_text, h1, h2, h3, h4]
  · intro msg h1 h2 h3 h4 h5 h6
    simp [extract_cv_text, h1, h2, h3, h4, h5, h6]
  · intro h1 h2 h3 h4 h5
    simp only [List.mem_cons, List.not_mem_nil, or_false, not_or] at h5
    obtain ⟨hp, hdx, hdc, ht⟩ := h5
    simp [extract_cv_text, h1, h2, h3, h4, hp, hdx, hdc, ht]

/-- A concrete environment for the extractor witness: every GET
answers HTTP 404, every parser raises. -/
def env404 : ExtractEnv :=
  { httpGet := fun _ => HttpResult.response 404 [],
    pdfPages := fun _ => Except.error "parse error",
    fileExists := fun _ => false,
    localPdfPages := fun _ => Except.error "parse error",
    docxParagraphs := fun _ => Except.error "parse error",
    txtContent := fun _ => Except.error "read error" }

/-- C8 witness: a resume URL whose download answers HTTP 404 extracts
to the empty string instead of failing. -/
theorem extractor_never_throws_witness :
    extract_cv_text env404 "https://blob.example/cv.pdf" = "" :=
  (extractor_never_throws env404 "https://blob.example/cv.pdf").2.2.2.1
    404 [] (by decide) (by decide) (by decide) rfl (by decide)

end Evalyn
